import Mathlib

/-!
Verification of the santos10-common device tree shims against their
natural-language specification.

Embedded sources:
* `src/power/power.c` — the Fugu/Intel power HAL: profile table application,
  boost-pulse rate limiting, timespec arithmetic.
* `DisplayModeControl.java` — the CyanogenMod display-mode shim: a fixed
  4-entry mode table mirrored through two filesystem nodes.

Sysfs/file writes are modelled as explicit `(path, value)` lists, the
process-wide mutable state is threaded explicitly, and C machine integers are
`Int`/`Nat` with explicit reduction modulo `2 ^ 64` where the source converts
to `uint64_t`.  An out-of-bounds table access is modelled as the `none` result
of an `Option`-valued lookup, so totality of an operation is memory safety.
The profile table itself lives in `power.h`, which the excerpt does not show;
its size `PROFILE_MAX` and contents `profiles` are therefore parameters.
-/

namespace Santos10

/-- C `struct timespec`: seconds and nanoseconds, both signed integers. -/
structure Timespec where
  tv_sec : Int
  tv_nsec : Int
deriving DecidableEq, Repr

/-- power.c `timespec_sub`: `res.tv_sec = a.tv_sec - b.tv_sec`; when
`a.tv_sec >= b.tv_sec` it sets `res.tv_nsec = a.tv_nsec - b.tv_nsec` (which may
be negative), otherwise it borrows one second.  Mirrors the source exactly,
including the comparison on `tv_sec` rather than `tv_nsec`. -/
def timespec_sub (a b : Timespec) : Timespec :=
  if a.tv_sec ≥ b.tv_sec then
    { tv_sec := a.tv_sec - b.tv_sec, tv_nsec := a.tv_nsec - b.tv_nsec }
  else
    { tv_sec := a.tv_sec - b.tv_sec - 1, tv_nsec := 1000000000 - b.tv_nsec + a.tv_nsec }

/-- power.c `timespec_to_us`: `t->tv_sec * 1000000 + t->tv_nsec / 1000`, with
C signed division (truncation toward zero, `Int.tdiv`), converted to the
`uint64_t` return type (reduction modulo `2 ^ 64`). -/
def timespec_to_us (t : Timespec) : Int :=
  (t.tv_sec * 1000000 + Int.tdiv t.tv_nsec 1000) % (2 ^ 64)

/-- The specification's "elapsed monotonic microseconds" from `b` to `a`:
the floor of the nanosecond difference divided by 1000.  This definition
follows the spec's words and is compared against the composition
`timespec_to_us (timespec_sub a b)` taken from the source. -/
def elapsed_us_spec (a b : Timespec) : Int :=
  Int.fdiv ((a.tv_sec - b.tv_sec) * 1000000000 + (a.tv_nsec - b.tv_nsec)) 1000

/-- One profile row of the table in `power.h` (contents not shown in the
excerpt; the fields are the eight sysfs values written by
`set_power_profile`). -/
structure PowerProfile where
  boost : Int
  boostpulse_duration : Int
  go_hispeed_load : Int
  hispeed_freq : Int
  io_is_busy : Int
  target_loads : String
  scaling_min_freq : Int
  scaling_max_freq : Int
deriving DecidableEq, Repr

/-- A sysfs write as observed behaviour: the path and the string written. -/
abbrev SysfsWrite := String × String

def BOOST_PULSE_SYSFS : String := "/sys/devices/system/cpu/cpufreq/interactive/boostpulse"

def CPUFREQ_PATH : String := "/sys/devices/system/cpu/cpu0/cpufreq/"

def INTERACTIVE_PATH : String := "/sys/devices/system/cpu/cpufreq/interactive/"

/-- power.c `is_profile_valid`: `profile >= 0 && profile < PROFILE_MAX`. -/
def is_profile_valid (PROFILE_MAX : Nat) (profile : Int) : Bool :=
  decide (0 ≤ profile ∧ profile < (PROFILE_MAX : Int))

/-- Indexing `profiles[i]`: `none` models an out-of-bounds array access. -/
def profilesGet (PROFILE_MAX : Nat) (profiles : Fin PROFILE_MAX → PowerProfile)
    (i : Int) : Option PowerProfile :=
  if h : 0 ≤ i ∧ i < (PROFILE_MAX : Int) then
    some (profiles ⟨i.toNat, by omega⟩)
  else
    none

/-- power.c `set_power_profile`, acting on `current_power_profile` (the `Int`
argument `cur`) with the governor-directory probe `check_governor` supplied as
the boolean `gov`.  Returns the emitted sysfs writes and the new value of
`current_power_profile`; `none` models an out-of-bounds table access. -/
def set_power_profile (PROFILE_MAX : Nat) (profiles : Fin PROFILE_MAX → PowerProfile)
    (profile : Int) (gov : Bool) (cur : Int) : Option (List SysfsWrite × Int) :=
  if !(is_profile_valid PROFILE_MAX profile) then some ([], cur)
  else if profile = cur then some ([], cur)
  else if !gov then some ([], cur)
  else
    match profilesGet PROFILE_MAX profiles profile with
    | none => none
    | some p =>
        some ([(INTERACTIVE_PATH ++ "boost", toString p.boost),
               (INTERACTIVE_PATH ++ "boostpulse_duration", toString p.boostpulse_duration),
               (INTERACTIVE_PATH ++ "go_hispeed_load", toString p.go_hispeed_load),
               (INTERACTIVE_PATH ++ "hispeed_freq", toString p.hispeed_freq),
               (INTERACTIVE_PATH ++ "io_is_busy", toString p.io_is_busy),
               (INTERACTIVE_PATH ++ "target_loads", p.target_loads),
               (CPUFREQ_PATH ++ "scaling_min_freq", toString p.scaling_min_freq),
               (CPUFREQ_PATH ++ "scaling_max_freq", toString p.scaling_max_freq)],
              profile)

/-- The `power_hint_t` values dispatched by `fugu_power_hint`; `OTHER` stands
for any hint hitting the `default:` arm. -/
inductive PowerHint where
  | INTERACTION
  | CPU_BOOST
  | LAUNCH_BOOST
  | SET_PROFILE
  | VSYNC
  | OTHER
deriving DecidableEq, Repr

/-- The mutable state of the power HAL: `mod->pulse_duration`,
`mod->last_boost_time` and the static `current_power_profile`. -/
structure HalState where
  pulse_duration : Nat
  last_boost_time : Timespec
  current_power_profile : Int
deriving DecidableEq, Repr

/-- power.c `fugu_power_hint`.  `data` is the `*(int32_t *)data` payload of
`SET_PROFILE`, `gov` the result of `check_governor`, `curr` the
`clock_gettime(CLOCK_MONOTONIC)` reading taken in the boost branch.  Returns
the emitted sysfs writes and the next state; `none` models an out-of-bounds
table access. -/
def fugu_power_hint (PROFILE_MAX : Nat) (profiles : Fin PROFILE_MAX → PowerProfile)
    (hint : PowerHint) (data : Int) (gov : Bool) (curr : Timespec)
    (s : HalState) : Option (List SysfsWrite × HalState) :=
  match hint with
  | .INTERACTION | .CPU_BOOST | .LAUNCH_BOOST =>
      if !(is_profile_valid PROFILE_MAX s.current_power_profile) then some ([], s)
      else
        match profilesGet PROFILE_MAX profiles s.current_power_profile with
        | none => none
        | some p =>
            if p.boostpulse_duration = 0 then some ([], s)
            else if !gov then some ([], s)
            else
              let diff := timespec_to_us (timespec_sub curr s.last_boost_time)
              if diff > (s.pulse_duration : Int) then
                some ([(BOOST_PULSE_SYSFS, "1")], { s with last_boost_time := curr })
              else some ([], s)
  | .SET_PROFILE =>
      match set_power_profile PROFILE_MAX profiles data gov s.current_power_profile with
      | none => none
      | some (w, c) => some (w, { s with current_power_profile := c })
  | .VSYNC => some ([], s)
  | .OTHER => some ([], s)

/-- A finite sequence of `powerHint(INTERACTION)` calls at the given monotonic
clock readings, concatenating the sysfs writes they emit. -/
def runInteractions (PROFILE_MAX : Nat) (profiles : Fin PROFILE_MAX → PowerProfile)
    (gov : Bool) (times : List Timespec) (s : HalState) :
    Option (List SysfsWrite × HalState) :=
  match times with
  | [] => some ([], s)
  | t :: ts =>
      match fugu_power_hint PROFILE_MAX profiles .INTERACTION 0 gov t s with
      | none => none
      | some (w, s1) =>
          match runInteractions PROFILE_MAX profiles gov ts s1 with
          | none => none
          | some (w2, s2) => some (w ++ w2, s2)

/-- The boost branch of `fugu_power_hint` is armed: a valid profile is
selected, its `boostpulse_duration` is non-zero, and the interactive governor
directory is present. -/
def boost_enabled (PROFILE_MAX : Nat) (profiles : Fin PROFILE_MAX → PowerProfile)
    (gov : Bool) (c : Int) : Bool :=
  match profilesGet PROFILE_MAX profiles c with
  | none => false
  | some p => decide (p.boostpulse_duration ≠ 0) && gov

/-- The safety invariant on `current_power_profile`: the sentinel `-1` or a
valid table index. -/
def profileInv (PROFILE_MAX : Nat) (c : Int) : Prop :=
  c = -1 ∨ (0 ≤ c ∧ c < (PROFILE_MAX : Int))

instance (PROFILE_MAX : Nat) (c : Int) : Decidable (profileInv PROFILE_MAX c) := by
  unfold profileInv
  infer_instance

/-- `profileInv` holds of the state reached by a hint call, and the call hit
no out-of-bounds access (`none` would make this `False`). -/
def invAfter (PROFILE_MAX : Nat) (r : Option (List SysfsWrite × HalState)) : Prop :=
  match r with
  | none => False
  | some (_, s2) => profileInv PROFILE_MAX s2.current_power_profile

/-- `cyanogenmod.hardware.DisplayMode`: an integer id and a name. -/
structure DisplayMode where
  id : Int
  name : String
deriving DecidableEq, Repr

def MODE_PATH : String := "/sys/class/mdnie/mdnie/mode"

def DEFAULT_PATH : String := "/data/misc/.displaymodedefault"

/-- The fixed 4-entry table `DISPLAY_MODES`. -/
def DISPLAY_MODES : List DisplayMode :=
  [⟨0, "Dynamic"⟩, ⟨1, "Standard"⟩, ⟨2, "Cinema"⟩, ⟨3, "Auto"⟩]

/-- The filesystem visible to the display shim: per path, the readable
one-line content (`none` when the file is absent or unreadable) and whether
the path is writable. -/
structure FS where
  files : String → Option String
  writable : String → Bool

/-- Modelled from the spec: `FileUtils.readOneLine` (from
`org.cyanogenmod.hardware.util`, not part of the excerpt) is one of the
"read/write-one-line helpers" — it returns the single line stored at the
path, or null when the file cannot be read. -/
def readOneLine (fs : FS) (path : String) : Option String :=
  fs.files path

/-- Modelled from the spec: `FileUtils.writeLine` (from
`org.cyanogenmod.hardware.util`, not part of the excerpt) writes one line to
the path and reports success; a failed write leaves the filesystem
unchanged. -/
def writeLine (fs : FS) (path line : String) : Bool × FS :=
  if fs.writable path then
    (true, { fs with files := fun p => if p = path then some line else fs.files p })
  else
    (false, fs)

/-- Java's `Integer.parseInt` (radix 10): an optional sign followed by at
least one decimal digit, rejecting anything else and values outside the
32-bit signed range; `none` models the thrown `NumberFormatException`
(including the one thrown on a null argument). -/
def parseIntJava (s : Option String) : Option Int :=
  match s with
  | none => none
  | some str =>
      let cs := str.data
      let (neg, digits) :=
        match cs with
        | '-' :: rest => (true, rest)
        | '+' :: rest => (false, rest)
        | _ => (false, cs)
      if digits = [] then none
      else if digits.all (fun d => d.isDigit) then
        let v : Nat := digits.foldl (fun acc d => acc * 10 + (d.toNat - '0'.toNat)) 0
        let i : Int := if neg then -(v : Int) else (v : Int)
        if -(2 ^ 31) ≤ i ∧ i ≤ 2 ^ 31 - 1 then some i else none
      else none

/-- Java's `DISPLAY_MODES[mode]` read: `none` models the
`ArrayIndexOutOfBoundsException` caught on a negative or too-large index. -/
def modeAt (i : Int) : Option DisplayMode :=
  if 0 ≤ i then DISPLAY_MODES[i.toNat]? else none

/-- `DisplayModeControl.getCurrentMode`: parse the mode file's line as an
integer and index the table, returning null on `NumberFormatException` or
`ArrayIndexOutOfBoundsException`. -/
def getCurrentMode (fs : FS) : Option DisplayMode :=
  (parseIntJava (readOneLine fs MODE_PATH)).bind modeAt

/-- `DisplayModeControl.getDefaultMode`: same as `getCurrentMode`, against the
default file. -/
def getDefaultMode (fs : FS) : Option DisplayMode :=
  (parseIntJava (readOneLine fs DEFAULT_PATH)).bind modeAt

/-- `DisplayModeControl.setMode`: null modes are rejected; otherwise the
mode's id is written to the mode file and, when that succeeded and
`makeDefault` is set, also to the default file.  Returns the success flag and
the possibly-updated filesystem. -/
def setMode (fs : FS) (mode : Option DisplayMode) (makeDefault : Bool) : Bool × FS :=
  match mode with
  | none => (false, fs)
  | some m =>
      let r := writeLine fs MODE_PATH (toString m.id)
      if r.1 && makeDefault then
        writeLine r.2 DEFAULT_PATH (toString m.id)
      else
        r

/-- The static initializer of `DisplayModeControl`: if the default file is
readable, apply the persisted default as current (without re-persisting);
otherwise, if the mode file is readable, snapshot the current hardware mode as
the new default.  `isFileReadable` is modelled as the file having readable
content. -/
def clinit (fs : FS) : FS :=
  if (fs.files DEFAULT_PATH).isSome then (setMode fs (getDefaultMode fs) false).2
  else if (fs.files MODE_PATH).isSome then (setMode fs (getCurrentMode fs) true).2
  else fs

/-- A mock filesystem for witnesses: everything writable, nothing present. -/
def mockFS : FS :=
  { files := fun _ => none, writable := fun _ => true }

/-- A mock filesystem for witnesses: only the default file is present,
holding "1"; everything writable. -/
def defaultOnlyFS : FS :=
  { files := fun p => if p = DEFAULT_PATH then some "1" else none
    writable := fun _ => true }

/-- A concrete profile row used to instantiate the parametric table in
witnesses and counterexamples. -/
def sampleProfile : PowerProfile :=
  { boost := 0
    boostpulse_duration := 40000
    go_hispeed_load := 90
    hispeed_freq := 1600000
    io_is_busy := 1
    target_loads := "90"
    scaling_min_freq := 200000
    scaling_max_freq := 1600000 }

/-- A one-row profile table for witnesses and counterexamples. -/
def sampleProfiles : Fin 1 → PowerProfile := fun _ => sampleProfile

/-! ### Helper lemmas -/

/-- When no nanosecond borrow is needed (`b.tv_nsec ≤ a.tv_nsec`), the
source's microsecond computation agrees with the floor of the nanosecond
difference divided by 1000.  The bound on the second difference keeps the
`uint64_t` conversion from wrapping. -/
theorem tous_sub_eq_floor (a b : Timespec)
    (hsec : b.tv_sec ≤ a.tv_sec) (hsb : a.tv_sec - b.tv_sec ≤ 2 ^ 40)
    (ha0 : 0 ≤ a.tv_nsec) (ha1 : a.tv_nsec < 1000000000)
    (hb0 : 0 ≤ b.tv_nsec) (hb1 : b.tv_nsec < 1000000000)
    (hnn : b.tv_nsec ≤ a.tv_nsec) :
    timespec_to_us (timespec_sub a b) = elapsed_us_spec a b := by
  unfold timespec_to_us timespec_sub elapsed_us_spec
  rw [if_pos hsec]
  dsimp only
  rw [Int.tdiv_eq_ediv (by omega) (by norm_num)]
  rw [Int.fdiv_eq_ediv _ (by norm_num)]
  have h1 : (a.tv_sec - b.tv_sec) * 1000000000 + (a.tv_nsec - b.tv_nsec)
      = (a.tv_nsec - b.tv_nsec) + (a.tv_sec - b.tv_sec) * 1000000 * 1000 := by ring
  rw [h1, Int.add_mul_ediv_right _ _ (by norm_num : (1000 : Int) ≠ 0)]
  have h2 : (0 : Int) ≤ (a.tv_nsec - b.tv_nsec) / 1000 :=
    Int.ediv_nonneg (by omega) (by norm_num)
  have h3 : (a.tv_nsec - b.tv_nsec) / 1000 < 1000000 := by omega
  rw [Int.emod_eq_of_lt (by omega) (by omega)]
  omega

/-- A call whose clock reading lies at most one pulse duration (in real
nanoseconds) after the previous boost produces a computed microsecond
difference of at most the pulse duration, whatever the rounding of the
truncating division does. -/
theorem tous_sub_le_of_window (t t0 : Timespec) (pd : Nat)
    (hpd : pd < 2 ^ 32)
    (hsec : t0.tv_sec ≤ t.tv_sec)
    (ht0 : 0 ≤ t.tv_nsec) (ht1 : t.tv_nsec < 1000000000)
    (h00 : 0 ≤ t0.tv_nsec) (h01 : t0.tv_nsec < 1000000000)
    (hlo : 0 ≤ (t.tv_sec - t0.tv_sec) * 1000000000 + (t.tv_nsec - t0.tv_nsec))
    (hhi : (t.tv_sec - t0.tv_sec) * 1000000000 + (t.tv_nsec - t0.tv_nsec)
      ≤ (pd : Int) * 1000) :
    timespec_to_us (timespec_sub t t0) ≤ (pd : Int) := by
  unfold timespec_to_us timespec_sub
  rw [if_pos hsec]
  dsimp only
  have key : 0 ≤ (t.tv_sec - t0.tv_sec) * 1000000 + Int.tdiv (t.tv_nsec - t0.tv_nsec) 1000 ∧
      (t.tv_sec - t0.tv_sec) * 1000000 + Int.tdiv (t.tv_nsec - t0.tv_nsec) 1000 ≤ (pd : Int) := by
    rcases le_or_lt 0 (t.tv_nsec - t0.tv_nsec) with hpos | hneg
    · rw [Int.tdiv_eq_ediv hpos (by norm_num)]
      omega
    · have h4 : Int.tdiv (t.tv_nsec - t0.tv_nsec) 1000
          = -((-(t.tv_nsec - t0.tv_nsec)) / 1000) := by
        rw [← Int.tdiv_eq_ediv (by omega) (by norm_num), Int.neg_tdiv, neg_neg]
      rw [h4]
      omega
  rw [Int.emod_eq_of_lt key.1 (by omega)]
  exact key.2

/-- `profiles[i]` is an in-bounds access exactly when `is_profile_valid`
accepts `i`. -/
theorem profilesGet_none_iff (pm : Nat) (profiles : Fin pm → PowerProfile) (i : Int) :
    profilesGet pm profiles i = none ↔ is_profile_valid pm i = false := by
  unfold profilesGet is_profile_valid
  by_cases h : 0 ≤ i ∧ i < (pm : Int)
  · simp [h]
  · simp [h]

/-! ### Claim theorems -/

/-- C3: the claim fails on the code.  At `a = ⟨1, 100⟩`, `b = ⟨0, 200⟩` (both
nanosecond fields in `[0, 10^9)`, `a` later than `b`) the true elapsed time is
999999900 ns, i.e. 999999 whole microseconds, but `timespec_sub` leaves the
negative nanosecond field `-100` and the truncating C division rounds it to
`0` instead of `-1`, so the composition returns 1000000. -/
theorem C3_counterexample :
    timespec_to_us (timespec_sub ⟨1, 100⟩ ⟨0, 200⟩) ≠ elapsed_us_spec ⟨1, 100⟩ ⟨0, 200⟩ := by
  decide

/-- C3 (amended): for timespec values with nanosecond fields in `[0, 10^9)`,
`a` not earlier than `b`, a second difference small enough not to wrap the
`uint64_t` result, and additionally `b.tv_nsec ≤ a.tv_nsec` (no nanosecond
borrow), the composition `timespec_to_us (timespec_sub a b)` equals the
elapsed time in whole microseconds, the floor of the nanosecond difference
divided by 1000. -/
theorem C3_elapsed_us_floor (a b : Timespec)
    (hsec : b.tv_sec ≤ a.tv_sec) (hsb : a.tv_sec - b.tv_sec ≤ 2 ^ 40)
    (ha0 : 0 ≤ a.tv_nsec) (ha1 : a.tv_nsec < 1000000000)
    (hb0 : 0 ≤ b.tv_nsec) (hb1 : b.tv_nsec < 1000000000)
    (hnn : b.tv_nsec ≤ a.tv_nsec) :
    timespec_to_us (timespec_sub a b) = elapsed_us_spec a b :=
  tous_sub_eq_floor a b hsec hsb ha0 ha1 hb0 hb1 hnn

/-- Witness for C3 (amended) at `a = ⟨5, 700⟩`, `b = ⟨2, 200⟩`. -/
theorem C3_witness :
    timespec_to_us (timespec_sub ⟨5, 700⟩ ⟨2, 200⟩) = elapsed_us_spec ⟨5, 700⟩ ⟨2, 200⟩ :=
  C3_elapsed_us_floor ⟨5, 700⟩ ⟨2, 200⟩ (by decide) (by decide) (by decide) (by decide)
    (by decide) (by decide) (by decide)

/-- C7: `setMode(null, makeDefault)` returns false and leaves the filesystem
untouched, for every `makeDefault` and every filesystem state. -/
theorem C7_setMode_null (fs : FS) (makeDefault : Bool) :
    setMode fs none makeDefault = (false, fs) := rfl

/-- C6: `getCurrentMode` (resp. `getDefaultMode`) returns null whenever the
mode (resp. default) file's content does not parse as an integer — including
an unreadable file, whose null content makes the parse fail — or parses to an
index outside `[0, 4)` of the 4-entry table, and returns the table entry at
index `i` when the content parses to a valid index `i`; being a total
function into `Option`, it never propagates an exception. -/
theorem C6_mode_read_total (fs : FS) :
    getCurrentMode fs =
      (match parseIntJava (readOneLine fs MODE_PATH) with
       | none => none
       | some i => if 0 ≤ i ∧ i < 4 then DISPLAY_MODES[i.toNat]? else none) ∧
    getDefaultMode fs =
      (match parseIntJava (readOneLine fs DEFAULT_PATH) with
       | none => none
       | some i => if 0 ≤ i ∧ i < 4 then DISPLAY_MODES[i.toNat]? else none) := by
  have hmode : ∀ i : Int, modeAt i =
      (if 0 ≤ i ∧ i < 4 then DISPLAY_MODES[i.toNat]? else none) := by
    intro i
    unfold modeAt
    by_cases h0 : 0 ≤ i
    · by_cases h4 : i < 4
      · rw [if_pos h0, if_pos ⟨h0, h4⟩]
      · rw [if_pos h0, if_neg (by tauto)]
        apply List.getElem?_eq_none
        simp [DISPLAY_MODES]
        omega
    · rw [if_neg h0, if_neg (by tauto)]
  constructor
  · unfold getCurrentMode
    rcases parseIntJava (readOneLine fs MODE_PATH) with _ | i
    · rfl
    · simpa using hmode i
  · unfold getDefaultMode
    rcases parseIntJava (readOneLine fs DEFAULT_PATH) with _ | i
    · rfl
    · simpa using hmode i

/-- C1: the claim fails on the code.  With profile 0 selected (non-zero
`boostpulse_duration`), the governor present, `pulse_duration = 20000`µs,
`last_boost_time = ⟨0, 999999500⟩` and current time `⟨1, 20000000⟩`, the true
elapsed time is 20000500 ns = 20000 whole microseconds, which does not
strictly exceed `pulse_duration`; the code nevertheless writes "1" to the
boost-pulse node and updates `last_boost_time`, because `timespec_sub` leaves
a negative nanosecond field whose truncating division overstates the elapsed
microseconds by one. -/
theorem C1_counterexample :
    fugu_power_hint 1 sampleProfiles .INTERACTION 0 true ⟨1, 20000000⟩
        ⟨20000, ⟨0, 999999500⟩, 0⟩ =
      some ([(BOOST_PULSE_SYSFS, "1")], ⟨20000, ⟨1, 20000000⟩, 0⟩) ∧
    ¬ elapsed_us_spec ⟨1, 20000000⟩ ⟨0, 999999500⟩ > (20000 : Int) := by
  decide

/-- C1 (amended): for INTERACTION / CPU_BOOST / LAUNCH_BOOST, under
well-formed monotonic clock readings (`last_boost_time ≤ curr`, nanosecond
fields in `[0, 10^9)`, bounded second difference) with additionally no
nanosecond borrow (`last_boost_time.tv_nsec ≤ curr.tv_nsec`): the call is a
no-op (no sysfs write, state unchanged) unless a valid profile with non-zero
`boostpulse_duration` is selected and the interactive governor is present;
when those hold it writes "1" to the boost-pulse node and updates
`last_boost_time` to the current time if and only if the elapsed monotonic
microseconds strictly exceed `pulse_duration`. -/
theorem C1_boost_hint_gating (PROFILE_MAX : Nat) (profiles : Fin PROFILE_MAX → PowerProfile)
    (hint : PowerHint) (data : Int) (gov : Bool) (curr : Timespec) (s : HalState)
    (hb : hint = .INTERACTION ∨ hint = .CPU_BOOST ∨ hint = .LAUNCH_BOOST)
    (hsec : s.last_boost_time.tv_sec ≤ curr.tv_sec)
    (hsb : curr.tv_sec - s.last_boost_time.tv_sec ≤ 2 ^ 40)
    (ha0 : 0 ≤ curr.tv_nsec) (ha1 : curr.tv_nsec < 1000000000)
    (hb0 : 0 ≤ s.last_boost_time.tv_nsec) (hb1 : s.last_boost_time.tv_nsec < 1000000000)
    (hnn : s.last_boost_time.tv_nsec ≤ curr.tv_nsec) :
    fugu_power_hint PROFILE_MAX profiles hint data gov curr s =
      (if boost_enabled PROFILE_MAX profiles gov s.current_power_profile then
        (if elapsed_us_spec curr s.last_boost_time > (s.pulse_duration : Int) then
          some ([(BOOST_PULSE_SYSFS, "1")], { s with last_boost_time := curr })
        else some ([], s))
      else some ([], s)) := by
  have key := tous_sub_eq_floor curr s.last_boost_time hsec hsb ha0 ha1 hb0 hb1 hnn
  have main : fugu_power_hint PROFILE_MAX profiles .INTERACTION data gov curr s =
      (if boost_enabled PROFILE_MAX profiles gov s.current_power_profile then
        (if elapsed_us_spec curr s.last_boost_time > (s.pulse_duration : Int) then
          some ([(BOOST_PULSE_SYSFS, "1")], { s with last_boost_time := curr })
        else some ([], s))
      else some ([], s)) := by
    unfold fugu_power_hint boost_enabled
    rcases hvp : profilesGet PROFILE_MAX profiles s.current_power_profile with _ | p
    · have hinvalid : is_profile_valid PROFILE_MAX s.current_power_profile = false :=
        (profilesGet_none_iff PROFILE_MAX profiles s.current_power_profile).mp hvp
      simp [hvp, hinvalid]
    · have hvalid : is_profile_valid PROFILE_MAX s.current_power_profile = true := by
        cases hvb : is_profile_valid PROFILE_MAX s.current_power_profile
        · rw [(profilesGet_none_iff PROFILE_MAX profiles
            s.current_power_profile).mpr hvb] at hvp
          exact absurd hvp (by simp)
        · rfl
      by_cases hd : p.boostpulse_duration = 0
      · simp [hvp, hvalid, hd]
      · cases gov
        · simp [hvp, hvalid, hd]
        · simp only [hvp, hvalid, hd, Bool.not_true, Bool.false_eq_true, if_false,
            decide_not, Bool.and_true, key]
          simp [key]
  rcases hb with rfl | rfl | rfl
  · exact main
  · exact main
  · exact main

/-- Witness for C1 (amended): profile 0 selected, non-zero duration, governor
present, one full second elapsed — the pulse fires. -/
theorem C1_witness :
    fugu_power_hint 1 sampleProfiles .INTERACTION 0 true ⟨1, 500⟩ ⟨20000, ⟨0, 200⟩, 0⟩ =
      (if boost_enabled 1 sampleProfiles true 0 then
        (if elapsed_us_spec ⟨1, 500⟩ ⟨0, 200⟩ > ((20000 : Nat) : Int) then
          some ([(BOOST_PULSE_SYSFS, "1")], ⟨20000, ⟨1, 500⟩, 0⟩)
        else some ([], ⟨20000, ⟨0, 200⟩, 0⟩))
      else some ([], ⟨20000, ⟨0, 200⟩, 0⟩)) :=
  C1_boost_hint_gating 1 sampleProfiles .INTERACTION 0 true ⟨1, 500⟩ ⟨20000, ⟨0, 200⟩, 0⟩
    (Or.inl rfl) (by decide) (by decide) (by decide) (by decide) (by decide) (by decide)
    (by decide)

/-- Unfolding `boost_enabled`: it demands an in-bounds selected profile with
non-zero `boostpulse_duration` and a present governor. -/
theorem boost_enabled_elim (pm : Nat) (profiles : Fin pm → PowerProfile) (gov : Bool)
    (c : Int) (hen : boost_enabled pm profiles gov c = true) :
    gov = true ∧ is_profile_valid pm c = true ∧
      ∃ p, profilesGet pm profiles c = some p ∧ p.boostpulse_duration ≠ 0 := by
  unfold boost_enabled at hen
  rcases hvp : profilesGet pm profiles c with _ | p
  · rw [hvp] at hen
    exact absurd hen (by simp)
  · rw [hvp] at hen
    simp only [Bool.and_eq_true, decide_eq_true_eq] at hen
    refine ⟨hen.2, ?_, p, rfl, hen.1⟩
    cases hvb : is_profile_valid pm c
    · rw [(profilesGet_none_iff pm profiles c).mpr hvb] at hvp
      exact absurd hvp (by simp)
    · rfl

/-- An armed INTERACTION call whose clock reading lies within one pulse
duration (in nanoseconds) of `last_boost_time` emits nothing and leaves the
state unchanged. -/
theorem interaction_no_fire (pm : Nat) (profiles : Fin pm → PowerProfile) (gov : Bool)
    (t : Timespec) (s : HalState)
    (hen : boost_enabled pm profiles gov s.current_power_profile = true)
    (hpd : s.pulse_duration < 2 ^ 32)
    (h00 : 0 ≤ s.last_boost_time.tv_nsec) (h01 : s.last_boost_time.tv_nsec < 1000000000)
    (hw : s.last_boost_time.tv_sec ≤ t.tv_sec ∧ 0 ≤ t.tv_nsec ∧ t.tv_nsec < 1000000000 ∧
      0 ≤ (t.tv_sec - s.last_boost_time.tv_sec) * 1000000000 +
        (t.tv_nsec - s.last_boost_time.tv_nsec) ∧
      (t.tv_sec - s.last_boost_time.tv_sec) * 1000000000 +
        (t.tv_nsec - s.last_boost_time.tv_nsec) ≤ (s.pulse_duration : Int) * 1000) :
    fugu_power_hint pm profiles .INTERACTION 0 gov t s = some ([], s) := by
  obtain ⟨hgov, hvalid, p, hvp, hdur⟩ := boost_enabled_elim pm profiles gov
    s.current_power_profile hen
  obtain ⟨hw1, hw2, hw3, hw4, hw5⟩ := hw
  have hle := tous_sub_le_of_window t s.last_boost_time s.pulse_duration hpd
    hw1 hw2 hw3 h00 h01 hw4 hw5
  unfold fugu_power_hint
  subst hgov
  simp [hvp, hvalid, hdur, not_lt.mpr hle]

/-- C2: the claim fails as stated.  With profile 0 selected (non-zero
duration), governor present and `pulse_duration = 20000`µs, two INTERACTION
calls at `⟨0, 0⟩` and `⟨0, 1000⟩` — both inside a single pulse-duration
window — produce zero writes, not exactly one, because `last_boost_time` is
still within the window when the sequence starts (the claim constrains no
prior boost state). -/
theorem C2_counterexample :
    runInteractions 1 sampleProfiles true [⟨0, 0⟩, ⟨0, 1000⟩] ⟨20000, ⟨0, 0⟩, 0⟩ =
      some ([], ⟨20000, ⟨0, 0⟩, 0⟩) := by
  decide

/-- C2 (amended): provided additionally that the first call's computed
elapsed microseconds since the previous boost strictly exceed
`pulse_duration` (so the first call fires), a finite sequence of
`powerHint(INTERACTION)` calls whose clock readings all lie within one
pulse-duration window of the first call issues exactly one write of "1" to
the boost-pulse node — the remaining calls are dropped — assuming a valid
profile with non-zero `boostpulse_duration` is selected, the governor is
present throughout, and the clock readings are well formed. -/
theorem C2_single_pulse_in_window (PROFILE_MAX : Nat)
    (profiles : Fin PROFILE_MAX → PowerProfile) (gov : Bool)
    (t0 : Timespec) (ts : List Timespec) (s : HalState)
    (hen : boost_enabled PROFILE_MAX profiles gov s.current_power_profile = true)
    (hpd : s.pulse_duration < 2 ^ 32)
    (h00 : 0 ≤ t0.tv_nsec) (h01 : t0.tv_nsec < 1000000000)
    (hfire : timespec_to_us (timespec_sub t0 s.last_boost_time) > (s.pulse_duration : Int))
    (hwin : ∀ t ∈ ts,
      t0.tv_sec ≤ t.tv_sec ∧ 0 ≤ t.tv_nsec ∧ t.tv_nsec < 1000000000 ∧
      0 ≤ (t.tv_sec - t0.tv_sec) * 1000000000 + (t.tv_nsec - t0.tv_nsec) ∧
      (t.tv_sec - t0.tv_sec) * 1000000000 + (t.tv_nsec - t0.tv_nsec)
        ≤ (s.pulse_duration : Int) * 1000) :
    runInteractions PROFILE_MAX profiles gov (t0 :: ts) s =
      some ([(BOOST_PULSE_SYSFS, "1")], { s with last_boost_time := t0 }) := by
  obtain ⟨hgov, hvalid, p, hvp, hdur⟩ := boost_enabled_elim PROFILE_MAX profiles gov
    s.current_power_profile hen
  have hfirst : fugu_power_hint PROFILE_MAX profiles .INTERACTION 0 gov t0 s =
      some ([(BOOST_PULSE_SYSFS, "1")], { s with last_boost_time := t0 }) := by
    unfold fugu_power_hint
    subst hgov
    simp [hvp, hvalid, hdur, hfire]
  have hrest : ∀ ts' : List Timespec, (∀ t ∈ ts',
      t0.tv_sec ≤ t.tv_sec ∧ 0 ≤ t.tv_nsec ∧ t.tv_nsec < 1000000000 ∧
      0 ≤ (t.tv_sec - t0.tv_sec) * 1000000000 + (t.tv_nsec - t0.tv_nsec) ∧
      (t.tv_sec - t0.tv_sec) * 1000000000 + (t.tv_nsec - t0.tv_nsec)
        ≤ (s.pulse_duration : Int) * 1000) →
      runInteractions PROFILE_MAX profiles gov ts' { s with last_boost_time := t0 } =
        some ([], { s with last_boost_time := t0 }) := by
    intro ts'
    induction ts' with
    | nil => intro _; rfl
    | cons t rest ih =>
        intro hall
        have hstep := interaction_no_fire PROFILE_MAX profiles gov t
          { s with last_boost_time := t0 } hen hpd h00 h01 (hall t (by simp))
        have ih2 := ih (fun u hu => hall u (by simp [hu]))
        simp only [runInteractions, hstep, ih2, List.nil_append]
  have hrest2 := hrest ts hwin
  simp only [runInteractions, hfirst, hrest2, List.append_nil]

/-- Witness for C2 (amended): first call one second after the last boost
fires; two follow-up calls 1000 ns and 2000 ns later are dropped. -/
theorem C2_witness :
    runInteractions 1 sampleProfiles true [⟨1, 0⟩, ⟨1, 1000⟩, ⟨1, 2000⟩]
        ⟨20000, ⟨0, 0⟩, 0⟩ =
      some ([(BOOST_PULSE_SYSFS, "1")], ⟨20000, ⟨1, 0⟩, 0⟩) :=
  C2_single_pulse_in_window 1 sampleProfiles true ⟨1, 0⟩ [⟨1, 1000⟩, ⟨1, 2000⟩]
    ⟨20000, ⟨0, 0⟩, 0⟩ (by decide) (by decide) (by decide) (by decide) (by decide)
    (by decide)

/-- C4: `set_power_profile` is idempotent.  If a call with profile id `p`
completes having performed the eight sysfs writes, an immediately following
call with the same id — under any governor state — performs no sysfs writes
and leaves `current_power_profile` unchanged, by the equality short-circuit
against `current_power_profile`. -/
theorem C4_set_power_profile_idem (PROFILE_MAX : Nat)
    (profiles : Fin PROFILE_MAX → PowerProfile) (p : Int) (gov gov2 : Bool)
    (cur c : Int) (w : List SysfsWrite)
    (h : set_power_profile PROFILE_MAX profiles p gov cur = some (w, c))
    (h8 : w.length = 8) :
    set_power_profile PROFILE_MAX profiles p gov2 c = some ([], c) := by
  unfold set_power_profile at h ⊢
  cases hv : is_profile_valid PROFILE_MAX p
  · simp only [hv, Bool.not_false, if_true, Option.some.injEq, Prod.mk.injEq] at h
    obtain ⟨h1, h2⟩ := h
    subst h1
    simp at h8
  · simp only [hv, Bool.not_true, Bool.false_eq_true, if_false] at h ⊢
    by_cases he : p = cur
    · rw [if_pos he] at h
      simp only [Option.some.injEq, Prod.mk.injEq] at h
      obtain ⟨h1, h2⟩ := h
      subst h1
      simp at h8
    · rw [if_neg he] at h
      cases gov
      · simp only [Bool.not_false, if_true, Option.some.injEq, Prod.mk.injEq] at h
        obtain ⟨h1, h2⟩ := h
        subst h1
        simp at h8
      · simp only [Bool.not_true, Bool.false_eq_true, if_false] at h
        rcases hvp : profilesGet PROFILE_MAX profiles p with _ | q
        · rw [(profilesGet_none_iff PROFILE_MAX profiles p).mp hvp] at hv
          exact absurd hv (by simp)
        · rw [hvp] at h
          simp only [Option.some.injEq, Prod.mk.injEq] at h
          rw [if_pos h.2]

/-- Witness for C4: on a one-row table, applying profile 0 from the sentinel
state performs the eight writes; the repeated call is a no-op. -/
theorem C4_witness :
    set_power_profile 1 sampleProfiles 0 false 0 = some ([], 0) :=
  C4_set_power_profile_idem 1 sampleProfiles 0 true false (-1) 0
    [(INTERACTIVE_PATH ++ "boost", "0"),
     (INTERACTIVE_PATH ++ "boostpulse_duration", "40000"),
     (INTERACTIVE_PATH ++ "go_hispeed_load", "90"),
     (INTERACTIVE_PATH ++ "hispeed_freq", "1600000"),
     (INTERACTIVE_PATH ++ "io_is_busy", "1"),
     (INTERACTIVE_PATH ++ "target_loads", "90"),
     (CPUFREQ_PATH ++ "scaling_min_freq", "200000"),
     (CPUFREQ_PATH ++ "scaling_max_freq", "1600000")]
    (by decide) (by decide)

/-- C5: every power-hint operation keeps `current_power_profile` in
`{-1} ∪ [0, PROFILE_MAX)`, never reaches an out-of-bounds table access
(`invAfter` would be `False` on the `none` result that models one), and a
SET_PROFILE hint with an out-of-range id is a no-op: no sysfs write and the
state — `current_power_profile` included — unchanged. -/
theorem C5_profile_safety (PROFILE_MAX : Nat) (profiles : Fin PROFILE_MAX → PowerProfile)
    (hint : PowerHint) (data : Int) (gov : Bool) (t : Timespec) (s : HalState)
    (hinv : profileInv PROFILE_MAX s.current_power_profile) :
    invAfter PROFILE_MAX (fugu_power_hint PROFILE_MAX profiles hint data gov t s) ∧
    (hint = .SET_PROFILE → is_profile_valid PROFILE_MAX data = false →
      fugu_power_hint PROFILE_MAX profiles hint data gov t s = some ([], s)) := by
  have hboost : ∀ h0 : PowerHint, h0 = .INTERACTION ∨ h0 = .CPU_BOOST ∨ h0 = .LAUNCH_BOOST →
      invAfter PROFILE_MAX (fugu_power_hint PROFILE_MAX profiles h0 data gov t s) := by
    intro h0 hh
    have : fugu_power_hint PROFILE_MAX profiles h0 data gov t s =
        fugu_power_hint PROFILE_MAX profiles .INTERACTION data gov t s := by
      rcases hh with rfl | rfl | rfl <;> rfl
    rw [this]
    unfold fugu_power_hint
    rcases hvp : profilesGet PROFILE_MAX profiles s.current_power_profile with _ | p
    · have hinvalid := (profilesGet_none_iff PROFILE_MAX profiles
        s.current_power_profile).mp hvp
      simp [hinvalid, invAfter, hinv]
    · have hvalid : is_profile_valid PROFILE_MAX s.current_power_profile = true := by
        cases hvb : is_profile_valid PROFILE_MAX s.current_power_profile
        · rw [(profilesGet_none_iff PROFILE_MAX profiles
            s.current_power_profile).mpr hvb] at hvp
          exact absurd hvp (by simp)
        · rfl
      by_cases hd : p.boostpulse_duration = 0
      · simp [hvp, hvalid, hd, invAfter, hinv]
      · cases gov
        · simp [hvp, hvalid, hd, invAfter, hinv]
        · by_cases hf : timespec_to_us (timespec_sub t s.last_boost_time)
              > (s.pulse_duration : Int)
          · simp [hvp, hvalid, hd, hf, invAfter, hinv]
          · simp [hvp, hvalid, hd, hf, invAfter, hinv]
  cases hint
  case INTERACTION => exact ⟨hboost _ (Or.inl rfl), by intro h; cases h⟩
  case CPU_BOOST => exact ⟨hboost _ (Or.inr (Or.inl rfl)), by intro h; cases h⟩
  case LAUNCH_BOOST => exact ⟨hboost _ (Or.inr (Or.inr rfl)), by intro h; cases h⟩
  case VSYNC => exact ⟨hinv, by intro h; cases h⟩
  case OTHER => exact ⟨hinv, by intro h; cases h⟩
  case SET_PROFILE =>
    unfold fugu_power_hint set_power_profile
    cases hv : is_profile_valid PROFILE_MAX data
    · constructor
      · simpa [invAfter] using hinv
      · intro _ _
        rfl
    · have hvdata : 0 ≤ data ∧ data < (PROFILE_MAX : Int) := by
        unfold is_profile_valid at hv
        exact of_decide_eq_true hv
      refine ⟨?_, by intro _ hc; cases hc⟩
      by_cases he : data = s.current_power_profile
      · simpa [he, invAfter] using hinv
      · cases gov
        · simpa [he, invAfter] using hinv
        · rcases hvp : profilesGet PROFILE_MAX profiles data with _ | q
          · rw [(profilesGet_none_iff PROFILE_MAX profiles data).mp hvp] at hv
            exact absurd hv (by simp)
          · simp [he, hvp, invAfter, profileInv]
            omega

/-- Witness for C5: out-of-range SET_PROFILE id 5 against a one-row table,
from the sentinel state: the invariant is kept and the call is a no-op. -/
theorem C5_witness :
    invAfter 1 (fugu_power_hint 1 sampleProfiles .SET_PROFILE 5 true ⟨0, 0⟩
      ⟨20000, ⟨0, 0⟩, -1⟩) ∧
    fugu_power_hint 1 sampleProfiles .SET_PROFILE 5 true ⟨0, 0⟩ ⟨20000, ⟨0, 0⟩, -1⟩ =
      some ([], ⟨20000, ⟨0, 0⟩, -1⟩) :=
  ⟨(C5_profile_safety 1 sampleProfiles .SET_PROFILE 5 true ⟨0, 0⟩ ⟨20000, ⟨0, 0⟩, -1⟩
      (by decide)).1,
   (C5_profile_safety 1 sampleProfiles .SET_PROFILE 5 true ⟨0, 0⟩ ⟨20000, ⟨0, 0⟩, -1⟩
      (by decide)).2 rfl (by decide)⟩

/-- The two display-shim paths are distinct files. -/
theorem mode_ne_default : MODE_PATH ≠ DEFAULT_PATH := by
  unfold MODE_PATH DEFAULT_PATH
  decide

/-- C8: for a non-null mode, `setMode` writes the decimal string of the
mode's id to the mode file; when that write succeeds and `makeDefault` is
set, it writes the same string to the default file; the returned flag is true
exactly when the mode-file write succeeds and, in the `makeDefault` case, the
default-file write also succeeds.  Write success is the target's
writability; a failed write leaves the file untouched. -/
theorem C8_setMode_writes (fs : FS) (m : DisplayMode) (md : Bool) :
    (setMode fs (some m) md).1 = (fs.writable MODE_PATH && (!md || fs.writable DEFAULT_PATH)) ∧
    (setMode fs (some m) md).2.files MODE_PATH =
      (if fs.writable MODE_PATH then some (toString m.id) else fs.files MODE_PATH) ∧
    (setMode fs (some m) md).2.files DEFAULT_PATH =
      (if fs.writable MODE_PATH && md && fs.writable DEFAULT_PATH then some (toString m.id)
       else fs.files DEFAULT_PATH) := by
  have hne : ¬ (MODE_PATH = DEFAULT_PATH) := mode_ne_default
  have hne' : ¬ (DEFAULT_PATH = MODE_PATH) := fun h => hne h.symm
  cases h1 : fs.writable MODE_PATH
  · cases md <;> simp [setMode, writeLine, h1, hne, hne']
  · cases md
    · simp [setMode, writeLine, h1, hne, hne']
    · cases h2 : fs.writable DEFAULT_PATH <;>
        simp [setMode, writeLine, h1, h2, hne, hne']

/-- C9: round-trip over a filesystem whose two nodes are writable: for every
entry `m` of the fixed table, `setMode m makeDefault` succeeds and a
subsequent `getCurrentMode` returns the table entry whose id equals `m.id` —
which is `m` itself, ids and indices of `DISPLAY_MODES` coinciding. -/
theorem C9_set_get_roundtrip (m : DisplayMode) (md : Bool) (fs : FS)
    (hm : m ∈ DISPLAY_MODES)
    (h1 : fs.writable MODE_PATH = true) (h2 : fs.writable DEFAULT_PATH = true) :
    (setMode fs (some m) md).1 = true ∧
    getCurrentMode (setMode fs (some m) md).2 = some m := by
  have hne' : ¬ (DEFAULT_PATH = MODE_PATH) := fun h => mode_ne_default h.symm
  have hread : readOneLine (setMode fs (some m) md).2 MODE_PATH = some (toString m.id) := by
    cases md <;>
      simp [setMode, writeLine, readOneLine, h1, h2, hne']
  constructor
  · cases md <;> simp [setMode, writeLine, h1, h2]
  · unfold getCurrentMode
    rw [hread]
    fin_cases hm <;> decide

/-- Witness for C9: the "Cinema" entry on the mock filesystem, with
`makeDefault` set. -/
theorem C9_witness :
    (setMode mockFS (some ⟨2, "Cinema"⟩) true).1 = true ∧
    getCurrentMode (setMode mockFS (some ⟨2, "Cinema"⟩) true).2 = some ⟨2, "Cinema"⟩ :=
  C9_set_get_roundtrip ⟨2, "Cinema"⟩ true mockFS (by decide) rfl rfl

/-- C10: on first load, if the default file is readable the persisted default
mode is applied as the current mode via `setMode` with `makeDefault` false
and the default file is not rewritten; otherwise, if the mode file is
readable, the current hardware mode is applied via `setMode` with
`makeDefault` true, persisting it as the new default; if neither is readable
nothing is written. -/
theorem C10_clinit (fs : FS) :
    ((fs.files DEFAULT_PATH).isSome = true →
      clinit fs = (setMode fs (getDefaultMode fs) false).2 ∧
      (clinit fs).files DEFAULT_PATH = fs.files DEFAULT_PATH) ∧
    ((fs.files DEFAULT_PATH).isSome = false → (fs.files MODE_PATH).isSome = true →
      clinit fs = (setMode fs (getCurrentMode fs) true).2) ∧
    ((fs.files DEFAULT_PATH).isSome = false → (fs.files MODE_PATH).isSome = false →
      clinit fs = fs) := by
  have hne' : ¬ (DEFAULT_PATH = MODE_PATH) := fun h => mode_ne_default h.symm
  refine ⟨fun hd => ⟨by simp [clinit, hd], ?_⟩, fun hd hm => by simp [clinit, hd, hm],
    fun hd hm => by simp [clinit, hd, hm]⟩
  simp only [clinit, hd, if_true]
  rcases getDefaultMode fs with _ | m
  · rfl
  · cases hw : fs.writable MODE_PATH <;>
      simp [setMode, writeLine, hw, hne']

/-- Witness for C10: a filesystem holding only a persisted default "1":
startup applies it as current and leaves the default file alone. -/
theorem C10_witness :
    clinit defaultOnlyFS = (setMode defaultOnlyFS (getDefaultMode defaultOnlyFS) false).2 ∧
    (clinit defaultOnlyFS).files DEFAULT_PATH = defaultOnlyFS.files DEFAULT_PATH :=
  (C10_clinit defaultOnlyFS).1 (by decide)

end Santos10
